import Mathlib

/-!
Verification of the helm client (`pkg/devspace/clients/helm/client.go`) of the
devspace repository, against its natural-language specification.

The Go code is shallowly embedded: every external collaborator (the Kubernetes
resource API, the helm RPC client, the chart loader, the repository downloader,
the home-directory resolver) is a record of result-returning functions, and each
Go function of the file becomes a Lean function over such a record.  Go `error`
values are modelled by their message strings (the code only ever inspects them
through `Error()` and `strings.Contains`).  Functions that additionally issue
calls whose results the Go code discards are given a `...Run` variant that also
returns the trace of issued calls, so that "was attempted" properties can be
stated.
-/

namespace DevspaceHelm

/-- Go `error` values, modelled by their message strings. -/
abbrev Err := String

/-! ### Constants of `client.go` -/

def tillerServiceAccountName : String := "devspace-tiller"

def tillerRoleName : String := "devspace-tiller"

def tillerDeploymentName : String := "tiller-deploy"

/-! ### Go `strings.Contains` -/

/-- `charsStartWith s sub` holds when `sub` is an initial segment of `s`
(Go `strings.HasPrefix` on rune lists). -/
def charsStartWith : List Char → List Char → Bool
  | _, [] => true
  | [], _ :: _ => false
  | c :: cs, d :: ds => c == d && charsStartWith cs ds

/-- `charsContain s sub` holds when `sub` occurs contiguously inside `s`. -/
def charsContain : List Char → List Char → Bool
  | [], sub => sub.isEmpty
  | c :: cs, sub => charsStartWith (c :: cs) sub || charsContain cs sub

/-- Go `strings.Contains s sub`. -/
def strContains (s sub : String) : Bool :=
  charsContain s.toList sub.toList

/-! ### `ReleaseExists` (client.go lines 405-416) -/

/-- The part of the environment `ReleaseExists` consumes: the helm RPC
`ReleaseHistory` call (the release history itself is discarded by the Go code,
only the error matters, hence `Option Err`), and the external
`helmstoragedriver.ErrReleaseNotFound` message constructor. -/
structure HistoryEnv where
  releaseHistory : String → Nat → Option Err
  errReleaseNotFound : String → Err

/-- `ReleaseExists`: queries `ReleaseHistory(name, WithMaxHistory(1))`; an error
whose message contains the not-found message becomes `(false, nil)`; any other
error is returned unmodified as `(false, err)`; success is `(true, nil)`. -/
def releaseExists (env : HistoryEnv) (releaseName : String) : Bool × Option Err :=
  match env.releaseHistory releaseName 1 with
  | some e =>
    if strContains e (env.errReleaseNotFound releaseName) then (false, none)
    else (false, some e)
  | none => (true, none)

/-! ### RBAC data model (client.go lines 65-75 and 334-364) -/

structure PolicyRule where
  apiGroups : List String
  resources : List String
  verbs : List String
deriving DecidableEq

/-- `k8sv1beta1.APIGroupAll`. -/
def apiGroupAll : String := "*"

/-- `k8sv1beta1.ResourceAll`. -/
def resourceAll : String := "*"

/-- `defaultPolicyRules` of client.go. -/
def defaultPolicyRules : List PolicyRule :=
  [⟨[apiGroupAll, "extensions", "apps"], [resourceAll], [resourceAll]⟩]

/-- The configmap-only rules passed to `ensureRoleBinding` for
`tiller-config-manager` (client.go lines 212-224). -/
def configMapRules : List PolicyRule :=
  [⟨[apiGroupAll, "extensions", "apps"], ["configmaps"], [resourceAll]⟩]

structure Role where
  name : String
  ns : String
  rules : List PolicyRule
deriving DecidableEq

structure Subject where
  kind : String
  name : String
  ns : String
deriving DecidableEq

structure RoleRef where
  apiGroup : String
  kind : String
  name : String
deriving DecidableEq

structure RoleBinding where
  name : String
  ns : String
  subjects : List Subject
  roleRef : RoleRef
deriving DecidableEq

/-- The role object built by `ensureRoleBinding` (client.go lines 335-341). -/
def mkTillerRole (name ns : String) (rules : List PolicyRule) : Role :=
  ⟨name, ns, rules⟩

/-- The role-binding object built by `ensureRoleBinding`
(client.go lines 342-359): its name is `name + "-binding"`, its subject is the
tiller service account in `tillerNs`, and its role-ref names the role. -/
def mkTillerRoleBinding (name ns tillerNs : String) : RoleBinding :=
  ⟨name ++ "-binding", ns,
   [⟨"ServiceAccount", tillerServiceAccountName, tillerNs⟩],
   ⟨"rbac.authorization.k8s.io", "Role", name⟩⟩

/-- The RBAC creation calls `ensureRoleBinding` issues. -/
structure RbacAPI where
  createRole : String → Role → Option Err
  createRoleBinding : String → RoleBinding → Option Err

inductive CreateAttempt where
  | role (r : Role)
  | roleBinding (rb : RoleBinding)
deriving DecidableEq

/-- `ensureRoleBinding` together with its trace of creation attempts.  The Go
code (lines 360-361) discards the results of both `Create` calls and returns
`nil` unconditionally. -/
def ensureRoleBindingRun (api : RbacAPI) (name ns tillerNs : String)
    (rules : List PolicyRule) : List CreateAttempt × Option Err :=
  let role := mkTillerRole name ns rules
  let rolebinding := mkTillerRoleBinding name ns tillerNs
  let _roleCreateDiscarded := api.createRole ns role
  let _roleBindingCreateDiscarded := api.createRoleBinding ns rolebinding
  ([CreateAttempt.role role, CreateAttempt.roleBinding rolebinding], none)

/-- `ensureRoleBinding` (client.go lines 334-364). -/
def ensureRoleBinding (api : RbacAPI) (name ns tillerNs : String)
    (rules : List PolicyRule) : Option Err :=
  (ensureRoleBindingRun api name ns tillerNs rules).2

/-! ### `ensureTiller` and its readiness poll (client.go lines 182-274) -/

/-- The replica counters of the tiller deployment as observed by one `Get`
(Go `int32` fields; only equality is ever tested, so `Int` is a faithful
carrier). -/
structure DeploymentStatus where
  readyReplicas : Int
  replicas : Int
deriving DecidableEq

/-- `tillerWaitingTime := 2 * 60 * time.Second`, in seconds. -/
def tillerWaitingTime : Nat := 2 * 60

/-- `tillerCheckInterval := 5 * time.Second`, in seconds. -/
def tillerCheckInterval : Nat := 5

/-- How the readiness poll of `ensureTiller` (lines 259-268) exits: either some
poll `i` observed `ReadyReplicas == Replicas`, or the waiting time was used up;
in the latter case the index records how many polls were made (the loop polls
once per interval while time remains). -/
inductive TillerWaitExit where
  | readyAt (i : Nat)
  | boundElapsed (polls : Nat)
deriving DecidableEq

/-- The readiness poll loop of `ensureTiller`: while `tillerWaitingTime > 0`,
get the deployment, stop if `ReadyReplicas == Replicas`, otherwise sleep one
interval and subtract it from the remaining time.  `poll i` is the status the
`i`-th `Get` observes. -/
def tillerWaitFrom (poll : Nat → DeploymentStatus) (i : Nat) (waitingTime : Nat) :
    TillerWaitExit :=
  if _h : 0 < waitingTime then
    if (poll i).readyReplicas = (poll i).replicas then TillerWaitExit.readyAt i
    else tillerWaitFrom poll (i + 1) (waitingTime - tillerCheckInterval)
  else TillerWaitExit.boundElapsed i
termination_by waitingTime
decreasing_by simp [tillerCheckInterval]; omega

/-- The tail of `ensureTiller` (lines 254-273): run the readiness poll, then
`return nil` — the loop's exit reason is discarded and no timeout error is
produced. -/
def ensureTillerWait (poll : Nat → DeploymentStatus) : Option Err :=
  let _exitDiscarded := tillerWaitFrom poll 0 tillerWaitingTime
  none

/-- The cluster/release namespaces `client.go` reads from the global
`privateConfig` (`Cluster.TillerNamespace` and `Release.Namespace`). -/
structure PrivateConfig where
  tillerNamespace : String
  releaseNamespace : String
deriving DecidableEq

/-- The environment `ensureTiller` consumes.  `getDeploymentErr` is the error
of the initial existence `Get` (non-nil means "Tiller is not there"),
`installErr` is the result of `helminstaller.Install`, which the Go code
discards (line 230), and `poll` drives the readiness loop. -/
structure TillerEnv where
  getDeploymentErr : Option Err
  getServiceAccountErr : Option Err
  createServiceAccountErr : Option Err
  installErr : Option Err
  upgradeErr : Option Err
  rbac : RbacAPI
  poll : Nat → DeploymentStatus

/-- `ensureTiller` (client.go lines 182-274).  When the deployment lookup
fails the install path runs: ensure the service account, ensure the
`tiller-config-manager` grant, install tiller (result discarded), ensure the
`devspace-tiller` grant; when it succeeds and `upgrade` is set, upgrade
in place.  Both paths end in the readiness poll followed by `return nil`. -/
def ensureTiller (env : TillerEnv) (cfg : PrivateConfig) (upgrade : Bool) : Option Err :=
  match env.getDeploymentErr with
  | some _ =>
    match (match env.getServiceAccountErr with
           | some _ => env.createServiceAccountErr
           | none => none) with
    | some e => some e
    | none =>
      match ensureRoleBinding env.rbac "tiller-config-manager" cfg.tillerNamespace
          cfg.tillerNamespace configMapRules with
      | some e => some e
      | none =>
        let _installDiscarded := env.installErr
        match ensureRoleBinding env.rbac tillerRoleName cfg.releaseNamespace
            cfg.tillerNamespace defaultPolicyRules with
        | some e => some e
        | none => ensureTillerWait env.poll
  | none =>
    if upgrade then
      match env.upgradeErr with
      | some e => some e
      | none => ensureTillerWait env.poll
    else ensureTillerWait env.poll

/-! ### `DeleteTiller` (client.go lines 276-328) -/

inductive ResourceKind where
  | deployment
  | serviceAccount
  | role
  | roleBinding
deriving DecidableEq

/-- One deletion the teardown issues: resource kind, namespace, name. -/
structure DeletionAttempt where
  kind : ResourceKind
  ns : String
  name : String
deriving DecidableEq

/-- The deletion calls `DeleteTiller` issues (namespace, name → error). -/
structure DeleteAPI where
  deleteDeployment : String → String → Option Err
  deleteServiceAccount : String → String → Option Err
  deleteRole : String → String → Option Err
  deleteRoleBinding : String → String → Option Err

/-- `deleteRoleNames` of client.go. -/
def deleteRoleNames : List String := ["tiller-config-manager", tillerRoleName]

/-- `deleteRoleNamespaces` of client.go. -/
def deleteRoleNamespaces (cfg : PrivateConfig) : List String :=
  [cfg.tillerNamespace, cfg.releaseNamespace]

/-- `if err != nil { errs = append(errs, err) }`. -/
def appendIfErr (errs : List Err) (r : Option Err) : List Err :=
  match r with
  | some e => errs ++ [e]
  | none => errs

/-- `DeleteTiller` with its trace: deletes the deployment, the service account,
then for every (role name, namespace) pair the role and the `-binding`
role-binding, appending each failure to `errs`; no step is skipped on
failure. -/
def deleteTillerRun (api : DeleteAPI) (cfg : PrivateConfig) :
    List DeletionAttempt × List Err :=
  let errs : List Err := []
  let errs := appendIfErr errs (api.deleteDeployment cfg.tillerNamespace tillerDeploymentName)
  let trace := [DeletionAttempt.mk ResourceKind.deployment cfg.tillerNamespace tillerDeploymentName]
  let errs := appendIfErr errs (api.deleteServiceAccount cfg.tillerNamespace tillerServiceAccountName)
  let trace := trace ++ [DeletionAttempt.mk ResourceKind.serviceAccount cfg.tillerNamespace tillerServiceAccountName]
  (List.zip deleteRoleNames (deleteRoleNamespaces cfg)).foldl
    (fun acc p =>
      let errs := appendIfErr acc.2 (api.deleteRole p.2 p.1)
      let trace := acc.1 ++ [DeletionAttempt.mk ResourceKind.role p.2 p.1]
      let errs := appendIfErr errs (api.deleteRoleBinding p.2 (p.1 ++ "-binding"))
      let trace := trace ++ [DeletionAttempt.mk ResourceKind.roleBinding p.2 (p.1 ++ "-binding")]
      (trace, errs))
    (trace, errs)

/-- The error merge at the end of `DeleteTiller` (lines 317-327): concatenate
every collected message followed by a newline; return `nil` exactly when the
concatenation is empty. -/
def mergeErrors (errs : List Err) : Option Err :=
  let errorText := errs.foldl (fun acc e => acc ++ e ++ "\n") ""
  if errorText = "" then none else some errorText

/-- `DeleteTiller` (client.go lines 276-328). -/
def deleteTiller (api : DeleteAPI) (cfg : PrivateConfig) : Option Err :=
  mergeErrors (deleteTillerRun api cfg).2

/-- The six deletions `DeleteTiller` always attempts, in order. -/
def deleteTillerAttempts (cfg : PrivateConfig) : List DeletionAttempt :=
  [⟨ResourceKind.deployment, cfg.tillerNamespace, tillerDeploymentName⟩,
   ⟨ResourceKind.serviceAccount, cfg.tillerNamespace, tillerServiceAccountName⟩,
   ⟨ResourceKind.role, cfg.tillerNamespace, "tiller-config-manager"⟩,
   ⟨ResourceKind.roleBinding, cfg.tillerNamespace, "tiller-config-manager" ++ "-binding"⟩,
   ⟨ResourceKind.role, cfg.releaseNamespace, tillerRoleName⟩,
   ⟨ResourceKind.roleBinding, cfg.releaseNamespace, tillerRoleName ++ "-binding"⟩]

/-- The outcomes of those six deletions, in attempt order. -/
def deleteTillerOutcomes (api : DeleteAPI) (cfg : PrivateConfig) : List (Option Err) :=
  [api.deleteDeployment cfg.tillerNamespace tillerDeploymentName,
   api.deleteServiceAccount cfg.tillerNamespace tillerServiceAccountName,
   api.deleteRole cfg.tillerNamespace "tiller-config-manager",
   api.deleteRoleBinding cfg.tillerNamespace ("tiller-config-manager" ++ "-binding"),
   api.deleteRole cfg.releaseNamespace tillerRoleName,
   api.deleteRoleBinding cfg.releaseNamespace (tillerRoleName ++ "-binding")]

/-! ### `updateRepos` (client.go lines 366-403) -/

/-- One entry of the repository registry file. -/
structure RepoEntry where
  name : String
  url : String
  cache : String
deriving DecidableEq

/-- The in-memory chart repository built from an entry. -/
structure ChartRepo where
  entry : RepoEntry
deriving DecidableEq

/-- The construction loop of `updateRepos` (lines 374-381): build a
`ChartRepository` per entry, returning the first construction error. -/
def buildRepos (newChartRepository : RepoEntry → Except Err ChartRepo) :
    List RepoEntry → Except Err (List ChartRepo)
  | [] => Except.ok []
  | e :: rest =>
    match newChartRepository e with
    | Except.error err => Except.error err
    | Except.ok r =>
      match buildRepos newChartRepository rest with
      | Except.error err => Except.error err
      | Except.ok rs => Except.ok (r :: rs)

/-- `updateRepos` with its refresh trace: load the registry file (error
propagates), build every chart repository (first error propagates), then
download every index — the download errors are only logged (line 393), never
propagated — and return `nil` after all downloads finished (`wg.Wait`). -/
def updateReposRun (loadRepositoriesFile : Except Err (List RepoEntry))
    (newChartRepository : RepoEntry → Except Err ChartRepo)
    (downloadIndexFile : ChartRepo → Option Err) :
    List (ChartRepo × Option Err) × Except Err Unit :=
  match loadRepositoriesFile with
  | Except.error e => ([], Except.error e)
  | Except.ok allRepos =>
    match buildRepos newChartRepository allRepos with
    | Except.error e => ([], Except.error e)
    | Except.ok repos =>
      let outcomes := repos.map (fun r => (r, downloadIndexFile r))
      (outcomes, Except.ok ())

/-- `updateRepos` (client.go lines 366-403). -/
def updateRepos (loadRepositoriesFile : Except Err (List RepoEntry))
    (newChartRepository : RepoEntry → Except Err ChartRepo)
    (downloadIndexFile : ChartRepo → Option Err) : Except Err Unit :=
  (updateReposRun loadRepositoriesFile newChartRepository downloadIndexFile).2

/-! ### `InstallChartByPath` (client.go lines 418-503) -/

/-- A chart as far as this code inspects it: only its dependency list is ever
read (`GetDependencies`). -/
structure Chart where
  dependencies : List String
deriving DecidableEq

/-- A release record as returned by the helm RPC responses. -/
structure Release where
  name : String
deriving DecidableEq

/-- The opaque override mapping (`*map[interface{}]interface{}`); only handed
to the YAML marshaller, never inspected. -/
abbrev ValuesMap := List (String × String)

/-- The arguments of a `Client.UpdateRelease` call, one field per helm option
the code passes (lines 473-480). -/
structure UpgradeCall where
  releaseName : String
  chartPath : String
  upgradeTimeout : Int
  updateValueOverrides : String
  reuseValues : Bool
  upgradeWait : Bool
deriving DecidableEq

/-- The arguments of a `Client.InstallReleaseFromChart` call, one field per
helm option the code passes (lines 487-495). -/
structure InstallCall where
  chart : Chart
  releaseNamespace : String
  installTimeout : Int
  valueOverrides : String
  releaseName : String
  reuseName : Bool
  installWait : Bool
deriving DecidableEq

/-- Which mutating release operation `InstallChartByPath` issued. -/
inductive ReleaseOp where
  | upgrade (c : UpgradeCall)
  | install (c : InstallCall)
deriving DecidableEq

/-- The environment of `InstallChartByPath`: chart loader, requirements
loader, dependency downloader, YAML marshaller and the two mutating RPCs. -/
structure ChartEnv where
  load : String → Except Err Chart
  loadRequirements : Chart → Option Err
  downloaderUpdate : Option Err
  yamlMarshal : ValuesMap → Except Err String
  updateRelease : UpgradeCall → Except Err Release
  installReleaseFromChart : InstallCall → Except Err Release

/-- Lines 420-453: load the chart; if it declares dependencies, load the
requirements, run the downloader update and reload the chart, propagating any
error. -/
def loadChartWithDeps (cenv : ChartEnv) (chartPath : String) : Except Err Chart :=
  match cenv.load chartPath with
  | Except.error e => Except.error e
  | Except.ok chart =>
    if chart.dependencies.length > 0 then
      match cenv.loadRequirements chart with
      | some e => Except.error e
      | none =>
        match cenv.downloaderUpdate with
        | some e => Except.error e
        | none => cenv.load chartPath
    else Except.ok chart

/-- Lines 460-469: a `nil` values pointer serializes to the explicit empty
payload `[]byte("")`; otherwise the mapping is YAML-marshalled, propagating a
marshalling error. -/
def marshalValues (cenv : ChartEnv) (values : Option ValuesMap) : Except Err String :=
  match values with
  | none => Except.ok ""
  | some v => cenv.yamlMarshal v

/-- `InstallChartByPath` with the release operation it issued (client.go lines
418-503): load the chart (with dependency resolution), query `ReleaseExists`,
serialize the overrides, then upgrade (existing release: timeout 600s, explicit
overrides, `ReuseValues(false)`, `UpgradeWait(true)`) or install (new release:
`ReleaseName`, `InstallReuseName(false)`, `InstallWait(true)`). -/
def installChartByPathRun (cenv : ChartEnv) (henv : HistoryEnv)
    (releaseName releaseNamespace chartPath : String) (values : Option ValuesMap) :
    Option ReleaseOp × Except Err Release :=
  match loadChartWithDeps cenv chartPath with
  | Except.error e => (none, Except.error e)
  | Except.ok chart =>
    match releaseExists henv releaseName with
    | (_, some e) => (none, Except.error e)
    | (releaseExistsB, none) =>
      let deploymentTimeout : Int := 10 * 60
      match marshalValues cenv values with
      | Except.error e => (none, Except.error e)
      | Except.ok overwriteValues =>
        if releaseExistsB then
          let call : UpgradeCall :=
            ⟨releaseName, chartPath, deploymentTimeout, overwriteValues, false, true⟩
          (some (ReleaseOp.upgrade call), cenv.updateRelease call)
        else
          let call : InstallCall :=
            ⟨chart, releaseNamespace, deploymentTimeout, overwriteValues, releaseName, false, true⟩
          (some (ReleaseOp.install call), cenv.installReleaseFromChart call)

/-- `InstallChartByPath` (result only). -/
def installChartByPath (cenv : ChartEnv) (henv : HistoryEnv)
    (releaseName releaseNamespace chartPath : String) (values : Option ValuesMap) :
    Except Err Release :=
  (installChartByPathRun cenv henv releaseName releaseNamespace chartPath values).2

/-! ### `InstallChartByName` (client.go lines 505-525) -/

/-- The arguments of the `chartDownloader.DownloadTo` call. -/
structure DownloadCall where
  chartName : String
  chartVersion : String
  dest : String
deriving DecidableEq

/-- `InstallChartByName` with the download call it issued (client.go lines
505-525): an empty version-constraint string is replaced by `">0.0.0-0"`,
then the chart is downloaded and handed to `InstallChartByPath`. -/
def installChartByNameRun (cenv : ChartEnv) (henv : HistoryEnv)
    (downloadTo : DownloadCall → Except Err String)
    (releaseName releaseNamespace chartName chartVersion archiveDir : String)
    (values : Option ValuesMap) : DownloadCall × Except Err Release :=
  let chartVersionEff := if chartVersion.length = 0 then ">0.0.0-0" else chartVersion
  let call : DownloadCall := ⟨chartName, chartVersionEff, archiveDir⟩
  match downloadTo call with
  | Except.error e => (call, Except.error e)
  | Except.ok chartPath =>
    (call, installChartByPath cenv henv releaseName releaseNamespace chartPath values)

/-! ### The loops of `NewClient` (client.go lines 78-180) -/

/-- `tunnelWaitTime := 2 * 60 * time.Second`, in seconds (as `Int`, mirroring
the signed `time.Duration`). -/
def tunnelWaitTime : Int := 2 * 60

/-- `tunnelCheckInterval := 5 * time.Second`, in seconds. -/
def tunnelCheckInterval : Int := 5

/-- The tunnel loop (lines 101-110): while `tunnelWaitTime > 0`, attempt the
port forward; break on success, or — after a failed attempt — when
`tunnelWaitTime < 0` (dead: the remaining time is never negative); otherwise
subtract the interval, sleep, retry.  `cur` is the loop-carried
(tunnel, tunnelErr) pair, `none` when no attempt ran yet; `attempt i` is the
outcome of the `i`-th `portforwarder.New` call, a local port on success. -/
def tunnelLoop (attempt : Nat → Except Err Nat) (i : Nat) (waitTime : Int)
    (cur : Option (Except Err Nat)) : Option (Except Err Nat) :=
  if _h : 0 < waitTime then
    match attempt i with
    | Except.ok t => some (Except.ok t)
    | Except.error e =>
      if waitTime < 0 then some (Except.error e)
      else tunnelLoop attempt (i + 1) (waitTime - tunnelCheckInterval) (some (Except.error e))
  else cur
termination_by waitTime.toNat
decreasing_by simp [tunnelCheckInterval]; omega

/-- `helmWaitTime := 2 * 60 * time.Second`, in seconds. -/
def helmWaitTime : Int := 2 * 60

/-- The tiller RPC health loop (lines 130-136), verbatim: while
`helmWaitTime > 0`, run `ListReleases(ReleaseListLimit(1))` and break when the
error is nil or `helmWaitTime < 0`.  The body neither subtracts from
`helmWaitTime` nor sleeps, so the loop state never changes besides the attempt
index; `fuel` bounds how many iterations we unfold, and `none` means the loop
was still running after `fuel` iterations.  `tillerError` is the loop-carried
error variable (nil before the first attempt). -/
def helmHealthLoop (attempt : Nat → Option Err) (waitTime : Int)
    (tillerError : Option Err) (i : Nat) : Nat → Option (Option Err)
  | 0 => none
  | fuel + 1 =>
    if 0 < waitTime then
      let e := attempt i
      if e = none ∨ waitTime < 0 then some e
      else helmHealthLoop attempt waitTime e (i + 1) fuel
    else some tillerError

/-- The wrapper `NewClient` returns: the helm client host and the settings
home path actually stored (lines 166-172). -/
structure HelmClientWrapper where
  clientHost : String
  settingsHome : String
deriving DecidableEq

/-- The environment of `NewClient`: kube-config lookup, the `ensureTiller`
environment, the port-forward attempts, the `ListReleases` health attempts,
the home-directory lookup, the two `os.Stat` results and the `updateRepos`
collaborators (whose outcome `NewClient` discards). -/
structure NewClientEnv where
  getClientConfigErr : Option Err
  tiller : TillerEnv
  portforwardNew : Nat → Except Err Nat
  listReleases : Nat → Option Err
  homedirDir : Except Err String
  statRepoFileErr : Option Err
  statStableRepoCacheErr : Option Err
  repoLoad : Except Err (List RepoEntry)
  repoCtor : RepoEntry → Except Err ChartRepo
  repoDl : ChartRepo → Option Err

/-- `NewClient` (client.go lines 78-180), returning the Go pair
`(*HelmClientWrapper, error)` as `(Option wrapper, Option error)`; the outer
`Option` is `none` when the health loop was still running after `fuel`
iterations.  Every failure path returns `(nil, err)`; on success the wrapper
holds `"127.0.0.1:" + tunnel.Local` and `homeDir + "/.devspace/helm"`; the
repo-file default write and the opportunistic `updateRepos` run only on a
failed `os.Stat` and their outcomes are discarded. -/
def newClient (env : NewClientEnv) (cfg : PrivateConfig) (upgradeTiller : Bool)
    (fuel : Nat) : Option (Option HelmClientWrapper × Option Err) :=
  match env.getClientConfigErr with
  | some e => some (none, some e)
  | none =>
    match ensureTiller env.tiller cfg upgradeTiller with
    | some e => some (none, some e)
    | none =>
      match tunnelLoop env.portforwardNew 0 tunnelWaitTime none with
      | none => some (none, none)
      | some (Except.error e) => some (none, some e)
      | some (Except.ok port) =>
        match helmHealthLoop env.listReleases helmWaitTime none 0 fuel with
        | none => none
        | some (some e) => some (none, some e)
        | some none =>
          match env.homedirDir with
          | Except.error e => some (none, some e)
          | Except.ok homeDir =>
            let helmHomePath := homeDir ++ "/.devspace/helm"
            let _writeDefaultRepoFile := env.statRepoFileErr.isSome
            let wrapper : HelmClientWrapper :=
              ⟨"127.0.0.1:" ++ toString port, helmHomePath⟩
            let _updateReposDiscarded :=
              if env.statStableRepoCacheErr.isSome then
                some (updateRepos env.repoLoad env.repoCtor env.repoDl)
              else none
            some (some wrapper, none)

/-! ### Concrete environments used to evaluate the model -/

/-- A deployment that never becomes ready: zero of one desired replica. -/
def neverReadyPoll : Nat → DeploymentStatus := fun _ => ⟨0, 1⟩

/-- A deployment that is ready from the first poll on. -/
def readyPoll : Nat → DeploymentStatus := fun _ => ⟨1, 1⟩

/-- An RBAC endpoint on which every creation succeeds. -/
def okRbac : RbacAPI := ⟨fun _ _ => none, fun _ _ => none⟩

/-- An RBAC endpoint on which every creation fails with a permission error —
not an already-exists error. -/
def deniedRbac : RbacAPI :=
  ⟨fun _ _ => some "roles.rbac.authorization.k8s.io is forbidden: permission denied",
   fun _ _ => some "rolebindings.rbac.authorization.k8s.io is forbidden: permission denied"⟩

/-- A concrete configuration: tiller in `kube-system`, releases in
`devspace`. -/
def cfgW : PrivateConfig := ⟨"kube-system", "devspace"⟩

/-- A tiller environment whose deployment already exists and whose pre-wait
steps all succeed, but whose deployment never becomes ready. -/
def tillerEnvNeverReady : TillerEnv :=
  ⟨none, none, none, none, none, okRbac, neverReadyPoll⟩

/-- A deletion endpoint on which the deployment deletion and both role
deletions fail and everything else succeeds. -/
def deleteApiW : DeleteAPI :=
  ⟨fun _ _ => some "deployment delete failed",
   fun _ _ => none,
   fun _ _ => some "role delete failed",
   fun _ _ => none⟩

/-- A history endpoint whose `ReleaseHistory` fails with a wrapped
release-not-found error. -/
def notFoundHistoryEnv : HistoryEnv :=
  ⟨fun _ _ => some "rpc error: code = Unknown desc = release: \"my-release\" not found",
   fun n => "release: \"" ++ n ++ "\" not found"⟩

/-- A history endpoint whose `ReleaseHistory` fails with a transport error. -/
def brokenHistoryEnv : HistoryEnv :=
  ⟨fun _ _ => some "transport is closing",
   fun n => "release: \"" ++ n ++ "\" not found"⟩

/-- A history endpoint whose `ReleaseHistory` succeeds. -/
def okHistoryEnv : HistoryEnv :=
  ⟨fun _ _ => none, fun n => "release: \"" ++ n ++ "\" not found"⟩

/-- A history endpoint reporting exactly "release not found". -/
def absentHistoryEnv : HistoryEnv :=
  ⟨fun n _ => some ("release: \"" ++ n ++ "\" not found"),
   fun n => "release: \"" ++ n ++ "\" not found"⟩

/-- A chart environment on which every collaborator succeeds and the chart has
no dependencies. -/
def cenvW : ChartEnv :=
  ⟨fun _ => Except.ok ⟨[]⟩, fun _ => none, none, fun _ => Except.ok "replicas: 2\n",
   fun _ => Except.ok ⟨"my-release"⟩, fun _ => Except.ok ⟨"my-release"⟩⟩

/-- One configured repository registry entry. -/
def repoEntryA : RepoEntry := ⟨"stable", "https://charts.example", "repository/cache/stable-index.yaml"⟩

/-- A `NewClient` environment on which every collaborator succeeds at the
first attempt. -/
def envHappy : NewClientEnv :=
  ⟨none, ⟨none, none, none, none, none, okRbac, readyPoll⟩,
   fun _ => Except.ok 44134, fun _ => none, Except.ok "/root",
   none, none, Except.ok [], fun e => Except.ok ⟨e⟩, fun _ => none⟩

/-! ## Theorems -/

/-! ### Helper lemmas about the readiness poll -/

/-- If the deployment is never ready, the poll loop runs the bounded wait down
to zero, making one poll per interval (⌈w/5⌉ polls for `w` seconds left), and
exits with `boundElapsed`. -/
theorem tillerWaitFrom_never_ready (poll : Nat → DeploymentStatus)
    (h : ∀ k, (poll k).readyReplicas ≠ (poll k).replicas) :
    ∀ (w i : Nat),
      tillerWaitFrom poll i w = TillerWaitExit.boundElapsed (i + (w + 4) / 5) := by
  intro w
  induction w using Nat.strong_induction_on with
  | _ w ih =>
    intro i
    rw [tillerWaitFrom]
    by_cases hw : 0 < w
    · rw [dif_pos hw, if_neg (h i)]
      rw [ih (w - tillerCheckInterval) (by simp [tillerCheckInterval]; omega) (i + 1)]
      congr 1
      simp only [tillerCheckInterval]
      omega
    · rw [dif_neg hw]
      congr 1
      omega

/-- If poll `j` is the first to observe readiness and enough waiting time
remains to reach it, the loop exits `readyAt` that poll. -/
theorem tillerWaitFrom_first_ready (poll : Nat → DeploymentStatus) :
    ∀ (j i w : Nat),
      (poll (i + j)).readyReplicas = (poll (i + j)).replicas →
      (∀ k, k < j → (poll (i + k)).readyReplicas ≠ (poll (i + k)).replicas) →
      tillerCheckInterval * j < w →
      tillerWaitFrom poll i w = TillerWaitExit.readyAt (i + j) := by
  intro j
  induction j with
  | zero =>
    intro i w hready _ hw
    have hw0 : 0 < w := by simpa using hw
    rw [tillerWaitFrom, dif_pos hw0, if_pos (by simpa using hready)]
    simp
  | succ j ihj =>
    intro i w hready hmin hw
    have hw0 : 0 < w := by
      have : 0 ≤ tillerCheckInterval * (j + 1) := Nat.zero_le _
      omega
    have hnot0 : (poll i).readyReplicas ≠ (poll i).replicas := by
      simpa using hmin 0 (Nat.succ_pos j)
    rw [tillerWaitFrom, dif_pos hw0, if_neg hnot0]
    have hidx : i + 1 + j = i + (j + 1) := by omega
    have := ihj (i + 1) (w - tillerCheckInterval)
      (by rw [hidx]; exact hready)
      (by
        intro k hk
        have hidx2 : i + 1 + k = i + (k + 1) := by omega
        rw [hidx2]
        exact hmin (k + 1) (by omega))
      (by simp only [tillerCheckInterval] at hw ⊢; omega)
    rw [this, hidx]

/-! ### C1 -/

/-- C1, counterexample.  A tiller deployment that never reaches readiness: the
poll loop of `ensureTiller` exhausts the full 120-second bound (24 polls at the
5-second interval) and `ensureTiller` nevertheless returns success (`none`),
not the Timeout error the claim requires. -/
theorem claim1_counterexample :
    ensureTiller tillerEnvNeverReady cfgW false = none ∧
      tillerWaitFrom neverReadyPoll 0 tillerWaitingTime = TillerWaitExit.boundElapsed 24 := by
  constructor
  · rfl
  · have h := tillerWaitFrom_never_ready neverReadyPoll
      (by intro k; simp [neverReadyPoll]) tillerWaitingTime 0
    simpa [tillerWaitingTime] using h

/-- C1, amended.  When the readiness poll observes ready = desired replicas at
the first such poll `j` within the bounded wait, the loop exits `readyAt j` and
`ensureTiller`'s tail returns success; when the deployment never reaches
readiness, the loop exits after exactly 24 polls (approximately the 120-second
bound — neither immediately nor indefinitely) and the tail still returns
success (`nil`), not a Timeout error; the poll only reads the deployment,
leaving it unchanged. -/
theorem claim1_amended (poll : Nat → DeploymentStatus) :
    (∀ j, (poll j).readyReplicas = (poll j).replicas →
        (∀ k, k < j → (poll k).readyReplicas ≠ (poll k).replicas) →
        tillerCheckInterval * j < tillerWaitingTime →
        tillerWaitFrom poll 0 tillerWaitingTime = TillerWaitExit.readyAt j ∧
          ensureTillerWait poll = none) ∧
    ((∀ k, (poll k).readyReplicas ≠ (poll k).replicas) →
        tillerWaitFrom poll 0 tillerWaitingTime = TillerWaitExit.boundElapsed 24 ∧
          ensureTillerWait poll = none) := by
  constructor
  · intro j hready hmin hj
    refine ⟨?_, rfl⟩
    have := tillerWaitFrom_first_ready poll j 0 tillerWaitingTime
      (by simpa using hready) (by simpa using hmin) hj
    simpa using this
  · intro h
    refine ⟨?_, rfl⟩
    have := tillerWaitFrom_never_ready poll h tillerWaitingTime 0
    simpa [tillerWaitingTime] using this

/-- C1, witness for the amended claim: a deployment ready at the very first
poll exits `readyAt 0` and the wait tail returns success. -/
theorem claim1_witness :
    tillerWaitFrom readyPoll 0 tillerWaitingTime = TillerWaitExit.readyAt 0 ∧
      ensureTillerWait readyPoll = none :=
  (claim1_amended readyPoll).1 0 (by simp [readyPoll])
    (fun k hk => absurd hk (Nat.not_lt_zero k))
    (by simp [tillerCheckInterval, tillerWaitingTime])

/-! ### C2 -/

/-- When every health-check attempt fails, the loop body can never satisfy its
break condition (`tillerError == nil || helmWaitTime < 0` with `helmWaitTime`
stuck at 120s), so no number of unfolded iterations reaches an exit. -/
theorem helmHealthLoop_stuck (attempt : Nat → Option Err)
    (h : ∀ k, attempt k ≠ none) :
    ∀ (fuel i : Nat) (cur : Option Err),
      helmHealthLoop attempt helmWaitTime cur i fuel = none := by
  intro fuel
  induction fuel with
  | zero => intro i cur; rfl
  | succ fuel ih =>
    intro i cur
    rw [helmHealthLoop]
    have h120 : (0 : Int) < helmWaitTime := by norm_num [helmWaitTime]
    rw [if_pos h120, if_neg ?hbreak]
    case hbreak =>
      push_neg
      exact ⟨h i, by norm_num [helmWaitTime]⟩
    exact ih (i + 1) (attempt i)

/-- C2.  The RPC health loop of `NewClient` (lines 130-136) is NOT a bounded
retry: against an endpoint that fails on every attempt it never exits — the
body neither decrements `helmWaitTime` nor sleeps, so the exit condition can
never become true (first conjunct, for every iteration count); it does exit as
soon as an attempt succeeds (second conjunct). -/
theorem claim2_health_loop_diverges :
    (∀ fuel : Nat,
        helmHealthLoop (fun _ => some "connection refused") helmWaitTime none 0 fuel = none) ∧
      helmHealthLoop (fun _ => none) helmWaitTime none 0 1 = some none := by
  constructor
  · intro fuel
    exact helmHealthLoop_stuck _ (fun k => by simp) fuel 0 none
  · rfl

/-! ### C3 -/

/-- C3, counterexample.  `ensureRoleBinding` against an RBAC endpoint whose
creations fail with permission-denied errors — errors the claim requires to be
propagated as non-nil — still returns `nil`: the Go code discards both `Create`
results (lines 360-361). -/
theorem claim3_counterexample :
    ensureRoleBinding deniedRbac "devspace-tiller" "devspace" "kube-system"
      defaultPolicyRules = none := rfl

/-- C3, amended.  `EnsureGrant` (`ensureRoleBinding`) (re)creates the role and
role-binding pair, but ignores every creation error — already-exists errors
(which are thereby treated as success, as the claim states) and all other
errors alike — and returns `nil` unconditionally; no creation error is ever
propagated to the caller. -/
theorem claim3_amended (api : RbacAPI) (name ns tillerNs : String)
    (rules : List PolicyRule) :
    ensureRoleBinding api name ns tillerNs rules = none := rfl

/-! ### Helper lemmas about `DeleteTiller` -/

theorem appendIfErr_eq (errs : List Err) (r : Option Err) :
    appendIfErr errs r = errs ++ r.toList := by
  cases r <;> simp [appendIfErr]

theorem filterMap_id_cons (o : Option Err) (l : List (Option Err)) :
    (o :: l).filterMap id = o.toList ++ l.filterMap id := by
  cases o <;> simp

/-- The trace of `DeleteTiller` is the same six deletions whatever the
outcomes: no failure aborts the sequence. -/
theorem deleteTillerRun_fst (api : DeleteAPI) (cfg : PrivateConfig) :
    (deleteTillerRun api cfg).1 = deleteTillerAttempts cfg := by
  simp [deleteTillerRun, deleteTillerAttempts, deleteRoleNames, deleteRoleNamespaces]

/-- The errors `DeleteTiller` collects are exactly the non-nil outcomes of its
six deletions, in attempt order. -/
theorem deleteTillerRun_snd (api : DeleteAPI) (cfg : PrivateConfig) :
    (deleteTillerRun api cfg).2 = (deleteTillerOutcomes api cfg).filterMap id := by
  simp [deleteTillerRun, deleteTillerOutcomes, deleteRoleNames, deleteRoleNamespaces,
    appendIfErr_eq, filterMap_id_cons]

theorem foldl_newline_length (l : List Err) :
    ∀ acc : String, acc.length ≤ (l.foldl (fun a e => a ++ e ++ "\n") acc).length := by
  induction l with
  | nil => intro acc; simp
  | cons e rest ih =>
    intro acc
    calc acc.length ≤ (acc ++ e ++ "\n").length := by
          simp [String.length_append]
          omega
      _ ≤ _ := ih (acc ++ e ++ "\n")

theorem strLength_eq_zero (s : String) : s.length = 0 ↔ s = "" := by
  constructor
  · intro h
    cases s with
    | mk data =>
      simp [String.length] at h
      simp [h]
  · intro h
    subst h
    rfl

theorem strLength_newline : ("\n" : String).length = 1 := rfl

/-- A nonempty error list folds to a nonempty message. -/
theorem foldl_newline_ne_empty (e : Err) (rest : List Err) :
    (e :: rest).foldl (fun a x => a ++ x ++ "\n") "" ≠ "" := by
  intro hte
  rw [List.foldl_cons] at hte
  have hlen := foldl_newline_length rest ("" ++ e ++ "\n")
  rw [hte] at hlen
  rw [String.length_append, String.length_append, strLength_newline] at hlen
  have h0 : ("" : String).length = 0 := rfl
  omega

theorem mergeErrors_eq_none_iff (l : List Err) : mergeErrors l = none ↔ l = [] := by
  constructor
  · intro h
    cases l with
    | nil => rfl
    | cons e rest =>
      exfalso
      unfold mergeErrors at h
      rw [if_neg (foldl_newline_ne_empty e rest)] at h
      exact Option.some_ne_none _ h
  · intro h
    subst h
    rfl

theorem mergeErrors_of_ne_nil (l : List Err) (h : l ≠ []) :
    mergeErrors l = some (l.foldl (fun a e => a ++ e ++ "\n") "") := by
  cases l with
  | nil => exact absurd rfl h
  | cons e rest =>
    unfold mergeErrors
    rw [if_neg (foldl_newline_ne_empty e rest)]

/-! ### C4 -/

/-- C4, counterexample.  A grant's role and its role-binding do NOT share the
same name: `ensureRoleBinding` names the binding `name + "-binding"`
(client.go line 344), so for the `devspace-tiller` grant the role is named
`devspace-tiller` and the binding `devspace-tiller-binding`. -/
theorem claim4_counterexample :
    (mkTillerRoleBinding "devspace-tiller" "devspace" "kube-system").name ≠
      (mkTillerRole "devspace-tiller" "devspace" defaultPolicyRules).name := by
  decide

/-- C4, amended.  For every grant the role-binding's name is the role's name
with the `"-binding"` suffix (not the same name), and its role-ref names the
role; the pair is created together by `ensureRoleBinding` (both creations in
one call, role first) and deleted together by `DeleteTiller`, whose attempt
trace contains, for each configured pair, the role `n` and the binding
`n + "-binding"` in the same namespace. -/
theorem claim4_amended (name ns tillerNs : String) (rules : List PolicyRule)
    (api : RbacAPI) (dapi : DeleteAPI) (cfg : PrivateConfig) :
    (mkTillerRoleBinding name ns tillerNs).name =
        (mkTillerRole name ns rules).name ++ "-binding" ∧
      (mkTillerRoleBinding name ns tillerNs).roleRef.name =
        (mkTillerRole name ns rules).name ∧
      (ensureRoleBindingRun api name ns tillerNs rules).1 =
        [CreateAttempt.role (mkTillerRole name ns rules),
         CreateAttempt.roleBinding (mkTillerRoleBinding name ns tillerNs)] ∧
      (DeletionAttempt.mk ResourceKind.role cfg.tillerNamespace "tiller-config-manager" ∈
          (deleteTillerRun dapi cfg).1 ∧
        DeletionAttempt.mk ResourceKind.roleBinding cfg.tillerNamespace
            ("tiller-config-manager" ++ "-binding") ∈ (deleteTillerRun dapi cfg).1) ∧
      (DeletionAttempt.mk ResourceKind.role cfg.releaseNamespace tillerRoleName ∈
          (deleteTillerRun dapi cfg).1 ∧
        DeletionAttempt.mk ResourceKind.roleBinding cfg.releaseNamespace
            (tillerRoleName ++ "-binding") ∈ (deleteTillerRun dapi cfg).1) := by
  refine ⟨rfl, rfl, rfl, ?_, ?_⟩ <;>
    rw [deleteTillerRun_fst dapi cfg] <;>
    simp [deleteTillerAttempts]

/-! ### C5 -/

/-- C5.  `ReleaseExists` branches on the sole `ReleaseHistory(name, max 1)`
call: an error containing the release-not-found message yields `(false, nil)`;
any other error is returned unmodified as `(false, err)` — never converted into
"does not exist"; success yields `(true, nil)`. -/
theorem claim5_exists_check (env : HistoryEnv) (name : String) :
    (∀ e, env.releaseHistory name 1 = some e →
        strContains e (env.errReleaseNotFound name) = true →
        releaseExists env name = (false, none)) ∧
      (∀ e, env.releaseHistory name 1 = some e →
        strContains e (env.errReleaseNotFound name) = false →
        releaseExists env name = (false, some e)) ∧
      (env.releaseHistory name 1 = none → releaseExists env name = (true, none)) := by
  refine ⟨?_, ?_, ?_⟩
  · intro e hh hc
    simp [releaseExists, hh, hc]
  · intro e hh hc
    simp [releaseExists, hh, hc]
  · intro hh
    simp [releaseExists, hh]

/-- C5, witness: a wrapped not-found error yields `(false, nil)`, a transport
error is passed through unmodified, and a successful history call yields
`(true, nil)`. -/
theorem claim5_witness :
    releaseExists notFoundHistoryEnv "my-release" = (false, none) ∧
      releaseExists brokenHistoryEnv "my-release" = (false, some "transport is closing") ∧
      releaseExists okHistoryEnv "my-release" = (true, none) :=
  ⟨(claim5_exists_check notFoundHistoryEnv "my-release").1 _ rfl (by decide),
   (claim5_exists_check brokenHistoryEnv "my-release").2.1 _ rfl (by decide),
   (claim5_exists_check okHistoryEnv "my-release").2.2 rfl⟩

/-! ### C6 -/

/-- C6.  `InstallChartByPath`, once the chart is loaded (dependencies resolved)
and the overrides serialized: when the existence check answers `(true, nil)` it
issues exactly an upgrade call with reuse-of-previous-values disabled, wait
enabled and the 600-second timeout — never an install; when it answers
`(false, nil)` it issues exactly an install call with reuse-name disabled, wait
enabled and the same timeout; and a `nil` override set serializes to the
explicit empty payload `""`, not an error. -/
theorem claim6_upsert (cenv : ChartEnv) (henv : HistoryEnv) (rn rns cp : String)
    (values : Option ValuesMap) (chart : Chart) (ov : String)
    (hchart : loadChartWithDeps cenv cp = Except.ok chart)
    (hov : marshalValues cenv values = Except.ok ov) :
    (releaseExists henv rn = (true, none) →
        (installChartByPathRun cenv henv rn rns cp values).1 =
          some (ReleaseOp.upgrade ⟨rn, cp, 600, ov, false, true⟩)) ∧
      (releaseExists henv rn = (false, none) →
        (installChartByPathRun cenv henv rn rns cp values).1 =
          some (ReleaseOp.install ⟨chart, rns, 600, ov, rn, false, true⟩)) ∧
      marshalValues cenv none = Except.ok "" := by
  refine ⟨?_, ?_, rfl⟩ <;> intro hex <;>
    simp [installChartByPathRun, hchart, hex, hov]

/-- C6, witness: with every collaborator succeeding, an existing release takes
the upgrade path with `ReuseValues(false)` and the empty payload, and an absent
release takes the install path with `InstallReuseName(false)`. -/
theorem claim6_witness :
    (installChartByPathRun cenvW okHistoryEnv "my-release" "devspace" "/chart" none).1 =
        some (ReleaseOp.upgrade ⟨"my-release", "/chart", 600, "", false, true⟩) ∧
      (installChartByPathRun cenvW absentHistoryEnv "my-release" "devspace" "/chart" none).1 =
        some (ReleaseOp.install ⟨⟨[]⟩, "devspace", 600, "", "my-release", false, true⟩) :=
  ⟨(claim6_upsert cenvW okHistoryEnv "my-release" "devspace" "/chart" none ⟨[]⟩ "" rfl rfl).1
      rfl,
   (claim6_upsert cenvW absentHistoryEnv "my-release" "devspace" "/chart" none ⟨[]⟩ "" rfl rfl).2.1
      (by decide)⟩

/-! ### C7 -/

/-- The download call `InstallChartByName` issues, whatever the download
outcome. -/
theorem installChartByNameRun_fst (cenv : ChartEnv) (henv : HistoryEnv)
    (downloadTo : DownloadCall → Except Err String)
    (rn rns chartName chartVersion archiveDir : String) (values : Option ValuesMap) :
    (installChartByNameRun cenv henv downloadTo rn rns chartName chartVersion
        archiveDir values).1 =
      ⟨chartName, if chartVersion.length = 0 then ">0.0.0-0" else chartVersion,
       archiveDir⟩ := by
  unfold installChartByNameRun
  split <;> (dsimp only [] ; split <;> rfl)

/-- C7.  `InstallChartByName` hands the chart downloader the version constraint
`">0.0.0-0"` (any version, the unbounded latest-compatible default) when the
given constraint string is empty, and the given string unchanged otherwise. -/
theorem claim7_version_default (cenv : ChartEnv) (henv : HistoryEnv)
    (downloadTo : DownloadCall → Except Err String)
    (rn rns chartName chartVersion archiveDir : String) (values : Option ValuesMap) :
    (chartVersion = "" →
        (installChartByNameRun cenv henv downloadTo rn rns chartName chartVersion
            archiveDir values).1 = ⟨chartName, ">0.0.0-0", archiveDir⟩) ∧
      (chartVersion ≠ "" →
        (installChartByNameRun cenv henv downloadTo rn rns chartName chartVersion
            archiveDir values).1 = ⟨chartName, chartVersion, archiveDir⟩) := by
  constructor <;> intro hv <;>
    rw [installChartByNameRun_fst] <;>
    have hlen := strLength_eq_zero chartVersion
  · rw [if_pos (hlen.mpr hv)]
  · rw [if_neg (fun h0 => hv (hlen.mp h0))]

/-- C7, witness: the empty constraint becomes `">0.0.0-0"`; the constraint
`"1.2.3"` passes through unchanged. -/
theorem claim7_witness :
    (installChartByNameRun cenvW okHistoryEnv (fun _ => Except.ok "/chart")
        "my-release" "devspace" "stable/nginx" "" "/arch" none).1 =
      ⟨"stable/nginx", ">0.0.0-0", "/arch"⟩ ∧
    (installChartByNameRun cenvW okHistoryEnv (fun _ => Except.ok "/chart")
        "my-release" "devspace" "stable/nginx" "1.2.3" "/arch" none).1 =
      ⟨"stable/nginx", "1.2.3", "/arch"⟩ :=
  ⟨(claim7_version_default cenvW okHistoryEnv (fun _ => Except.ok "/chart")
      "my-release" "devspace" "stable/nginx" "" "/arch" none).1 rfl,
   (claim7_version_default cenvW okHistoryEnv (fun _ => Except.ok "/chart")
      "my-release" "devspace" "stable/nginx" "1.2.3" "/arch" none).2 (by decide)⟩

/-! ### C8 -/

/-- C8.  `DeleteTiller` attempts all six deletions — deployment, service
account and both (role, role-binding) pairs — whatever fails (the trace is the
same for every outcome assignment); the collected errors are exactly the
non-nil outcomes in attempt order; it returns `nil` iff every deletion
succeeded; and otherwise it returns the single aggregate error concatenating
exactly the failure messages, each followed by a newline, none dropped. -/
theorem claim8_teardown (api : DeleteAPI) (cfg : PrivateConfig) :
    (deleteTillerRun api cfg).1 = deleteTillerAttempts cfg ∧
      (deleteTillerRun api cfg).2 = (deleteTillerOutcomes api cfg).filterMap id ∧
      (deleteTiller api cfg = none ↔ ∀ o ∈ deleteTillerOutcomes api cfg, o = none) ∧
      ((deleteTillerOutcomes api cfg).filterMap id ≠ [] →
        deleteTiller api cfg =
          some (((deleteTillerOutcomes api cfg).filterMap id).foldl
            (fun a e => a ++ e ++ "\n") "")) := by
  refine ⟨deleteTillerRun_fst api cfg, deleteTillerRun_snd api cfg, ?_, ?_⟩
  · rw [deleteTiller, deleteTillerRun_snd, mergeErrors_eq_none_iff,
      List.filterMap_eq_nil_iff]
    simp
  · intro h
    rw [deleteTiller, deleteTillerRun_snd]
    exact mergeErrors_of_ne_nil _ h

/-- C8, witness: three of the six deletions fail (the deployment and both
roles); all six are still attempted and the aggregate error enumerates exactly
the three failures in order. -/
theorem claim8_witness :
    (deleteTillerRun deleteApiW cfgW).1 = deleteTillerAttempts cfgW ∧
      deleteTiller deleteApiW cfgW =
        some "deployment delete failed\nrole delete failed\nrole delete failed\n" := by
  refine ⟨(claim8_teardown deleteApiW cfgW).1, ?_⟩
  have h := (claim8_teardown deleteApiW cfgW).2.2.2 (by decide)
  rw [h]
  rfl

/-! ### C9 -/

/-- C9, counterexample.  The registry file loads successfully (one entry), the
per-entry `NewChartRepository` construction fails, and `updateRepos` returns
that error — so `updateRepos` can fail even though the registry file was read
and parsed, contradicting "returns an error only when the repository registry
file itself cannot be read or parsed". -/
theorem claim9_counterexample :
    updateRepos (Except.ok [repoEntryA])
      (fun _ => Except.error "no getter for scheme https")
      (fun _ => none) = Except.error "no getter for scheme https" := rfl

/-- C9, amended.  `updateRepos` propagates a registry-file load error and the
first chart-repository construction error; once every repository is
constructed it refreshes each one's index (the trace pairs every repository
with its download outcome), returns only after all refreshes ran, and returns
success whatever subset of the downloads failed — download failures are logged
and never turn into an error. -/
theorem claim9_amended (load : Except Err (List RepoEntry))
    (ctor : RepoEntry → Except Err ChartRepo) (dl : ChartRepo → Option Err) :
    (∀ e, load = Except.error e → updateRepos load ctor dl = Except.error e) ∧
      (∀ entries e, load = Except.ok entries → buildRepos ctor entries = Except.error e →
        updateRepos load ctor dl = Except.error e) ∧
      (∀ entries repos, load = Except.ok entries → buildRepos ctor entries = Except.ok repos →
        updateRepos load ctor dl = Except.ok () ∧
          (updateReposRun load ctor dl).1 = repos.map (fun r => (r, dl r))) := by
  refine ⟨?_, ?_, ?_⟩
  · intro e h
    simp [updateRepos, updateReposRun, h]
  · intro entries e h1 h2
    simp [updateRepos, updateReposRun, h1, h2]
  · intro entries repos h1 h2
    constructor <;> simp [updateRepos, updateReposRun, h1, h2]

/-- C9, witness: one configured repository whose index download fails — the
refresh is attempted, its failure recorded in the trace, and `updateRepos`
still returns success. -/
theorem claim9_witness :
    updateRepos (Except.ok [repoEntryA]) (fun e => Except.ok ⟨e⟩)
        (fun _ => some "index download failed") = Except.ok () ∧
      (updateReposRun (Except.ok [repoEntryA]) (fun e => Except.ok ⟨e⟩)
        (fun _ => some "index download failed")).1 =
          [(⟨repoEntryA⟩, some "index download failed")] := by
  have h := (claim9_amended (Except.ok [repoEntryA]) (fun e => Except.ok ⟨e⟩)
    (fun _ => some "index download failed")).2.2 [repoEntryA] [⟨repoEntryA⟩] rfl rfl
  exact ⟨h.1, by rw [h.2]; rfl⟩

/-! ### C10 -/

/-- The tunnel loop always terminates with a carried result when entered with
time remaining (it subtracts the interval every failed attempt): `NewClient`
never reads the loop-carried pair uninitialized. -/
theorem tunnelLoop_isSome (attempt : Nat → Except Err Nat) :
    ∀ (n : Nat) (w : Int), w.toNat ≤ n → ∀ (i : Nat) (cur : Option (Except Err Nat)),
      (0 < w ∨ cur.isSome) → (tunnelLoop attempt i w cur).isSome := by
  intro n
  induction n with
  | zero =>
    intro w hw i cur hcur
    have hw0 : ¬ 0 < w := by omega
    rw [tunnelLoop, dif_neg hw0]
    rcases hcur with h | h
    · exact absurd h hw0
    · exact h
  | succ n ih =>
    intro w hw i cur hcur
    rw [tunnelLoop]
    by_cases hw0 : 0 < w
    · rw [dif_pos hw0]
      rcases hat : attempt i with e | t
      · dsimp only []
        have hnotneg : ¬ w < 0 := by omega
        rw [if_neg hnotneg]
        refine ih (w - tunnelCheckInterval) ?_ (i + 1) _ (Or.inr rfl)
        simp only [tunnelCheckInterval]
        omega
      · rfl
    · rw [dif_neg hw0]
      rcases hcur with h | h
      · exact absurd h hw0
      · exact h

/-- C10.  Whenever `NewClient` returns (for any environment, any iteration
budget of the health loop), the returned `(wrapper, error)` pair has a non-nil
wrapper exactly when the error is nil: every failure path — kube-config
lookup, `ensureTiller`, tunnel establishment after the bounded retries, the
RPC health check, home-directory resolution — yields `(nil, err)`, and the
single success path yields a wrapper with `nil` error. -/
theorem claim10_newclient (env : NewClientEnv) (cfg : PrivateConfig)
    (upgradeTiller : Bool) (fuel : Nat) (r : Option HelmClientWrapper × Option Err)
    (h : newClient env cfg upgradeTiller fuel = some r) :
    r.1.isSome ↔ r.2 = none := by
  unfold newClient at h
  rcases hg : env.getClientConfigErr with _ | e <;> rw [hg] at h
  case some =>
    simp only [Option.some.injEq] at h
    subst h
    simp
  case none =>
  rcases ht : ensureTiller env.tiller cfg upgradeTiller with _ | e <;> rw [ht] at h
  case some =>
    simp only [Option.some.injEq] at h
    subst h
    simp
  case none =>
  rcases htl : tunnelLoop env.portforwardNew 0 tunnelWaitTime none with _ | res
  case none =>
    have hsome := tunnelLoop_isSome env.portforwardNew tunnelWaitTime.toNat
      tunnelWaitTime le_rfl 0 none (Or.inl (by norm_num [tunnelWaitTime]))
    rw [htl] at hsome
    simp at hsome
  case some =>
  rw [htl] at h
  rcases res with e | port
  case error =>
    simp only [Option.some.injEq] at h
    subst h
    simp
  case ok =>
  rcases hhl : helmHealthLoop env.listReleases helmWaitTime none 0 fuel
    with _ | he <;> rw [hhl] at h
  case none => exact absurd h (by simp)
  case some =>
  rcases he with _ | e
  case some =>
    simp only [Option.some.injEq] at h
    subst h
    simp
  case none =>
  rcases hhd : env.homedirDir with e | homeDir <;> rw [hhd] at h
  case error =>
    simp only [Option.some.injEq] at h
    subst h
    simp
  case ok =>
    simp only [Option.some.injEq] at h
    subst h
    simp

/-- The tunnel loop exits immediately with the port when the first
port-forward attempt succeeds. -/
theorem tunnelLoop_first_ok (attempt : Nat → Except Err Nat) (t : Nat)
    (h : attempt 0 = Except.ok t) :
    tunnelLoop attempt 0 tunnelWaitTime none = some (Except.ok t) := by
  rw [tunnelLoop, dif_pos (by norm_num [tunnelWaitTime] : (0:Int) < tunnelWaitTime), h]

/-- C10, witness: the all-succeeding environment produces the wrapper holding
the tunnel host and the helm home under the home directory, with a nil error,
and that pair satisfies the iff. -/
theorem claim10_witness :
    newClient envHappy cfgW false 1 =
        some (some ⟨"127.0.0.1:44134", "/root/.devspace/helm"⟩, none) ∧
      ((some (⟨"127.0.0.1:44134", "/root/.devspace/helm"⟩ : HelmClientWrapper)).isSome ↔
        (none : Option Err) = none) := by
  have htl : tunnelLoop envHappy.portforwardNew 0 tunnelWaitTime none =
      some (Except.ok 44134) := tunnelLoop_first_ok _ 44134 rfl
  have hnc : newClient envHappy cfgW false 1 =
      some (some ⟨"127.0.0.1:44134", "/root/.devspace/helm"⟩, none) := by
    unfold newClient
    rw [show envHappy.getClientConfigErr = none from rfl]
    rw [show ensureTiller envHappy.tiller cfgW false = none from rfl]
    rw [htl]
    rw [show helmHealthLoop envHappy.listReleases helmWaitTime none 0 1 = some none by
      rw [helmHealthLoop]
      norm_num [helmWaitTime, envHappy]]
    rfl
  exact ⟨hnc, claim10_newclient envHappy cfgW false 1 _ hnc⟩

end DevspaceHelm
